import Mathlib

/-!
Verification of the networking component `dcsNet.c` of the data connection
service (le_net API): a shallow embedding of its data model and operations,
with theorems about the per-session default-gateway backup stack, the DHCP
lease-file parser, and the route/address validation logic.

Modelling conventions:
* C strings are Lean `String`s (the addresses and interface names involved are
  ASCII, so byte counts and character counts coincide); `le_utf8_Copy` into a
  buffer of `n` bytes is truncation to `n - 1` characters, and
  `strncmp(a, b, n) == 0` on NUL-terminated strings is equality of the first
  `n` characters.
* Calls into the platform adapter (`pa_dcs_*`), libc and the technology
  registry are modelled by explicit oracle parameters; the adapter calls the
  code emits are recorded in an event list.
* Machine integers stay within their ranges in every reachable case here
  (prefix-length strings have at most 3 characters, so the `int16_t` cast of
  `strtol` never wraps); integers are `Nat`/`Int`.
-/

/-- The `le_result_t` codes used by this component. -/
inductive LeResult where
  | ok
  | fault
  | notFound
  | overflow
  | badParameter
  | duplicate
  | unsupported
  | wouldBlock
  deriving DecidableEq, Repr

/-- Client session references (`le_msg_SessionRef_t`): an opaque handle with
equality; `0` stands for the internal `le_data` client (the NULL reference). -/
def Session : Type := Nat

instance : DecidableEq Session := instDecidableEqNat
instance : OfNat Session n := ⟨(n : Nat)⟩
instance : Repr Session := instReprNat

/-- Observable calls into the platform adapter (and the one deprecation
warning the spec talks about), in the order the code issues them. -/
inductive Ev where
  /-- `pa_dcs_SetDefaultGateway(intf, addr, isIpv6)` -/
  | setDefaultGateway (intf addr : String) (isIpv6 : Bool)
  /-- `le_dcsTech_GetDefaultGWAddress(...)`: query of the cellular technology
  provider for gateway addresses -/
  | cellularQuery
  /-- `pa_dcs_GetDhcpLeaseFilePath(intf, ...)`: start of a DHCP lease file
  read for the given interface -/
  | leaseRead (intf : String)
  /-- `pa_dcs_ChangeRoute(action, dest, prefixStr, intf)` -/
  | changeRoute (dest pfxLen intf : String) (isAdd : Bool)
  /-- the `LE_WARN("Deprecated, a prefix length is expected ...")` emitted on
  the legacy IPv4 netmask path -/
  | warnDeprecated
  deriving DecidableEq, Repr

/-- Modelled from the spec: `PA_DCS_IPV4_ADDR_MAX_BYTES` of `pa_dcs.h` (not
under `src/`), the fixed width of an IPv4 address buffer. -/
def PA_DCS_IPV4_ADDR_MAX_BYTES : Nat := 16

/-- Modelled from the spec: `PA_DCS_IPV6_ADDR_MAX_BYTES` of `pa_dcs.h` (not
under `src/`), the fixed width of an IPv6 address buffer. -/
def PA_DCS_IPV6_ADDR_MAX_BYTES : Nat := 46

/-- Modelled from the spec: `PA_DCS_INTERFACE_NAME_MAX_BYTES` of `pa_dcs.h`
(not under `src/`), the fixed width of an interface-name buffer. -/
def PA_DCS_INTERFACE_NAME_MAX_BYTES : Nat := 20

/-- Modelled from the spec: the technology enumeration of `le_dcs.api` (not
under `src/`): `UNKNOWN` is the first member and `MAX` the one-past-the-end
sentinel, with `CELLULAR` and the other real technologies in between.
Technologies are the raw enum numerals so that out-of-range values are
representable. -/
def LE_DCS_TECH_UNKNOWN : Nat := 0

/-- Modelled from the spec: see `LE_DCS_TECH_UNKNOWN`. -/
def LE_DCS_TECH_WIFI : Nat := 1

/-- Modelled from the spec: see `LE_DCS_TECH_UNKNOWN`. -/
def LE_DCS_TECH_CELLULAR : Nat := 2

/-- Modelled from the spec: see `LE_DCS_TECH_UNKNOWN`. -/
def LE_DCS_TECH_MAX : Nat := 3

/-- `#define IPV6_PREFIX_LENGTH_MAX (8 * 8 * 2)` -/
def IPV6_PREFIX_LENGTH_MAX : Int := 8 * 8 * 2

/-- `#define IPV6_PREFIX_LEN_STR_LENGTH 3` -/
def IPV6_PREFIX_LEN_STR_LENGTH : Nat := 3

/-- `#define DEFAULT_GW_OPTION "routers"` -/
def DEFAULT_GW_OPTION : String := "routers"

/-- `#define DNS_ADDRESS_OPTION "domain-name-servers"` -/
def DNS_ADDRESS_OPTION : String := "domain-name-servers"

/-- `#define MAX_NUM_DEFAULT_GATEWAY_ADDRESS_BY_TYPE 1` -/
def MAX_NUM_DEFAULT_GATEWAY_ADDRESS_BY_TYPE : Nat := 1

/-- `#define MAX_NUM_DNS_ADDRESS_BY_TYPE 2` -/
def MAX_NUM_DNS_ADDRESS_BY_TYPE : Nat := 2

/-- Line buffer width of `GetDhcpLeaseFileEntry`'s caller buffer
(`MAX_NUM_DNS_ADDRESS_BY_TYPE * (PA_DCS_IPV4_ADDR_MAX_BYTES
+ PA_DCS_IPV6_ADDR_MAX_BYTES + 1)` bytes, from `GetLeaseAddresses`). -/
def ADDRESS_BUFFER_BYTES : Nat :=
  MAX_NUM_DNS_ADDRESS_BY_TYPE *
    (PA_DCS_IPV4_ADDR_MAX_BYTES + PA_DCS_IPV6_ADDR_MAX_BYTES + 1)

/-- `le_utf8_Copy(dst, src, n, ...)`: copy into an `n`-byte buffer, truncating
to `n - 1` characters (the last byte is the NUL terminator). -/
def utf8Copy (src : String) (n : Nat) : String :=
  ⟨src.toList.take (n - 1)⟩

/-- Whether `le_utf8_Copy(dst, src, n, ...)` reports `LE_OVERFLOW`
(source does not fit in `n - 1` characters). -/
def utf8CopyOverflows (src : String) (n : Nat) : Bool :=
  decide (n - 1 < src.toList.length)

/-- `strncmp(a, b, n) == 0` for NUL-terminated strings: the first `n`
characters agree. -/
def strncmpEq (n : Nat) (a b : String) : Bool :=
  a.toList.take n = b.toList.take n

/-- C `isspace`: space, tab, newline, vertical tab, form feed, carriage
return. -/
def isSpaceChar (c : Char) : Bool :=
  c = ' ' || c = '\t' || c = '\n' || c = '\x0b' || c = '\x0c' || c = '\r'

/-- The leading-whitespace strip loop of `le_net_ChangeRoute`
(`for (i=0; (i<stringLen) && isspace(*p); i++) p++;`). -/
def stripLeadingSpace (s : String) : String :=
  ⟨s.toList.dropWhile isSpaceChar⟩

/-- Split a character list at every occurrence of `sep`, keeping empty
fields (the helper behind both the `strtok_r` space-tokenizer — whose callers
drop the empty fields, matching `strtok_r`'s skipping of consecutive
delimiters — and the dot-splitting of a dotted-quad literal). -/
def splitCharAux (sep : Char) : List Char → List Char → List (List Char)
  | [], acc => [acc.reverse]
  | c :: cs, acc =>
      if c = sep then acc.reverse :: splitCharAux sep cs []
      else splitCharAux sep cs (c :: acc)

/-- Split a character list on a separator character. -/
def splitChar (sep : Char) (cs : List Char) : List (List Char) :=
  splitCharAux sep cs []

/-! ## The default-gateway backup stack (`DcsDefaultGwConfigDbList`)

A `pa_dcs_DefaultGwBackup_t` snapshot per client session, kept on a list whose
head is the top of the LIFO stack (`le_dls_Stack` pushes to the head).  The
`DcsDefaultGwConfigDb_t` wrapper only adds the intrusive list link, which the
list representation subsumes. -/

/-- `pa_dcs_DefaultGwBackup_t`: one archived default-gateway snapshot. -/
structure DefaultGwBackup where
  appSessionRef : Session
  defaultV4GW : String
  defaultV4Interface : String
  setV4GwToSystem : Bool
  defaultV6GW : String
  defaultV6Interface : String
  setV6GwToSystem : Bool
  deriving DecidableEq, Repr

/-- The all-zero snapshot produced by
`memset(archivedDbPtr, 0x0, sizeof(DcsDefaultGwConfigDb_t))`. -/
def emptyBackup : DefaultGwBackup :=
  { appSessionRef := 0
    defaultV4GW := ""
    defaultV4Interface := ""
    setV4GwToSystem := false
    defaultV6GW := ""
    defaultV6Interface := ""
    setV6GwToSystem := false }

/-- `DcsDefaultGwConfigDbList`: head of the list = top of the stack. -/
abbrev GwStack : Type := List DefaultGwBackup

/-- Remove the first element satisfying `p` (`le_dls_Remove` of the link the
search returned). -/
def removeFirstP (p : α → Bool) : List α → List α
  | [] => []
  | x :: xs => if p x then xs else x :: removeFirstP p xs

/-- Update the first element satisfying `p` in place (mutation through the
pointer `GetDefaultGwConfigDb` returned). -/
def updateFirstP (p : α → Bool) (f : α → α) : List α → List α
  | [] => []
  | x :: xs => if p x then f x :: xs else x :: updateFirstP p f xs

/-- Membership test used for the session match
(`backupDbPtr->appSessionRef == appSessionRef`). -/
def sessionEq (s : Session) (b : DefaultGwBackup) : Bool :=
  b.appSessionRef = s

/-- `GetDefaultGwConfigDb`: linear scan from the head for the first snapshot
whose session matches.  (The `isRecent` output — whether the match is the
head — only feeds log messages and is exposed separately below.) -/
def GetDefaultGwConfigDb (s : Session) (st : GwStack) : Option DefaultGwBackup :=
  st.find? (sessionEq s)

/-- The `isRecent` output of `GetDefaultGwConfigDb`: the matching snapshot is
at the head of the list. -/
def GetDefaultGwConfigDbIsRecent (s : Session) (st : GwStack) : Bool :=
  match st with
  | [] => false
  | x :: _ => sessionEq s x

/-- Number of snapshots of session `s` on the stack. -/
def countSession (s : Session) (st : GwStack) : Nat :=
  st.countP (sessionEq s)

/-- `InsertDefaultGwBackupDb(appSessionRef, backupDataPtr)`: find the session's
snapshot; if found, unlink it and recompute each `set*GwToSystem` flag as the
*incoming* snapshot's flag when both the archived gateway address and interface
equal the incoming ones (`strncmp` on the fixed-width fields), `false`
otherwise; if not found, allocate a zeroed snapshot carrying the session and
clear both flags.  Then copy the four address/interface fields from the
incoming data (`le_utf8_Copy` truncation) and push to the head
(`le_dls_Stack`). -/
def InsertDefaultGwBackupDb (appSessionRef : Session)
    (backupData : DefaultGwBackup) (st : GwStack) : GwStack :=
  match GetDefaultGwConfigDb appSessionRef st with
  | none =>
      let archived := { emptyBackup with appSessionRef := appSessionRef }
      let archived := { archived with
        setV4GwToSystem := false
        setV6GwToSystem := false
        defaultV4GW := utf8Copy backupData.defaultV4GW PA_DCS_IPV4_ADDR_MAX_BYTES
        defaultV4Interface :=
          utf8Copy backupData.defaultV4Interface PA_DCS_INTERFACE_NAME_MAX_BYTES
        defaultV6GW := utf8Copy backupData.defaultV6GW PA_DCS_IPV6_ADDR_MAX_BYTES
        defaultV6Interface :=
          utf8Copy backupData.defaultV6Interface PA_DCS_INTERFACE_NAME_MAX_BYTES }
      archived :: st
  | some archivedData =>
      let rest := removeFirstP (sessionEq appSessionRef) st
      let archived := { archivedData with
        setV4GwToSystem :=
          if strncmpEq PA_DCS_IPV4_ADDR_MAX_BYTES
               archivedData.defaultV4GW backupData.defaultV4GW
             && strncmpEq PA_DCS_INTERFACE_NAME_MAX_BYTES
               archivedData.defaultV4Interface backupData.defaultV4Interface
          then backupData.setV4GwToSystem else false
        setV6GwToSystem :=
          if strncmpEq PA_DCS_IPV6_ADDR_MAX_BYTES
               archivedData.defaultV6GW backupData.defaultV6GW
             && strncmpEq PA_DCS_INTERFACE_NAME_MAX_BYTES
               archivedData.defaultV6Interface backupData.defaultV6Interface
          then backupData.setV6GwToSystem else false }
      let archived := { archived with
        defaultV4GW := utf8Copy backupData.defaultV4GW PA_DCS_IPV4_ADDR_MAX_BYTES
        defaultV4Interface :=
          utf8Copy backupData.defaultV4Interface PA_DCS_INTERFACE_NAME_MAX_BYTES
        defaultV6GW := utf8Copy backupData.defaultV6GW PA_DCS_IPV6_ADDR_MAX_BYTES
        defaultV6Interface :=
          utf8Copy backupData.defaultV6Interface PA_DCS_INTERFACE_NAME_MAX_BYTES }
      archived :: rest

/-- What `pa_dcs_GetDefaultGateway` wrote into the zeroed local
`pa_dcs_DefaultGwBackup_t` of `le_net_BackupDefaultGW`: the current system
default gateways per family (empty when absent), plus the per-family result
codes (used only for log messages).  It does not touch the
`set*GwToSystem` flags, which stay `false` from the `memset`. -/
structure PaGetGwResp where
  v4Ret : LeResult
  v6Ret : LeResult
  defaultV4GW : String
  defaultV4Interface : String
  defaultV6GW : String
  defaultV6Interface : String
  deriving DecidableEq, Repr

/-- `le_net_BackupDefaultGW`: zero a local snapshot, let the adapter fill in
the current system gateways, and insert it for the calling session.  Never
fails to the caller. -/
def le_net_BackupDefaultGW (sessionRef : Session) (resp : PaGetGwResp)
    (st : GwStack) : GwStack :=
  InsertDefaultGwBackupDb sessionRef
    { appSessionRef := 0
      defaultV4GW := resp.defaultV4GW
      defaultV4Interface := resp.defaultV4Interface
      setV4GwToSystem := false
      defaultV6GW := resp.defaultV6GW
      defaultV6Interface := resp.defaultV6Interface
      setV6GwToSystem := false } st

/-- `le_net_RestoreDefaultGW`: find the caller's snapshot (`LE_NOT_FOUND` if
none); for each family whose `set*GwToSystem` flag is set, call
`pa_dcs_SetDefaultGateway` with the archived interface and address (the
per-family results start as `LE_OK` and are only overwritten by an attempted
call); release the snapshot unconditionally (its destructor unlinks it from
the stack); return `LE_OK` if either family result is `LE_OK`, else
`LE_FAULT`.  `setGw` is the adapter oracle. -/
def le_net_RestoreDefaultGW (sessionRef : Session)
    (setGw : String → String → Bool → LeResult) (st : GwStack) :
    LeResult × GwStack × List Ev :=
  match GetDefaultGwConfigDb sessionRef st with
  | none => (LeResult.notFound, st, [])
  | some b =>
      let v4Result := if b.setV4GwToSystem
        then setGw b.defaultV4Interface b.defaultV4GW false else LeResult.ok
      let v6Result := if b.setV6GwToSystem
        then setGw b.defaultV6Interface b.defaultV6GW true else LeResult.ok
      let evs :=
        (if b.setV4GwToSystem
          then [Ev.setDefaultGateway b.defaultV4Interface b.defaultV4GW false]
          else []) ++
        (if b.setV6GwToSystem
          then [Ev.setDefaultGateway b.defaultV6Interface b.defaultV6GW true]
          else [])
      let st := removeFirstP (sessionEq sessionRef) st
      (if v4Result = LeResult.ok || v6Result = LeResult.ok
        then LeResult.ok else LeResult.fault, st, evs)

/-! ## DHCP lease file parser (`GetDhcpLeaseFileEntry`, `GetLeaseAddresses`) -/

/-- The two members of `DhcpAddress_t`. -/
inductive DhcpAddress where
  | defaultGatewayAddress
  | dnsServerAddress
  deriving DecidableEq, Repr

/-- Index of the first occurrence of `key` in `hay` (`strstr`). -/
def findSubstrIdx (key : List Char) : List Char → Option Nat
  | [] => if key = [] then some 0 else none
  | c :: cs =>
      if key.isPrefixOf (c :: cs) then some 0
      else (findSubstrIdx key cs).map (· + 1)

/-- Environment of a lease-file read: the result of
`pa_dcs_GetDhcpLeaseFilePath` and what `le_flock_TryOpenStream` delivers — an
error result, or the lines of the file as `fgets` reads them (with their
trailing newline). -/
structure LeaseEnv where
  pathRes : LeResult
  file : Except LeResult (List String)

/-- `GetDhcpLeaseFileEntry`: resolve the lease-file path (`LE_FAULT` if that
fails), pick the search key from the option kind, open the file (propagating
the open error), scan for the first line containing the key as a substring,
copy from one byte past the key to end-of-line into the `destSizeBytes`-byte
buffer (`le_utf8_Copy`, so `LE_OVERFLOW` when truncated), then cut the copy at
the first `;`.  `LE_NOT_FOUND` when no line matches.  The emitted `leaseRead`
event marks the lease-file access. -/
def GetDhcpLeaseFileEntry (intf : String) (infoType : DhcpAddress)
    (destSizeBytes : Nat) (env : LeaseEnv) : LeResult × String × List Ev :=
  let evs := [Ev.leaseRead intf]
  if env.pathRes ≠ LeResult.ok then (LeResult.fault, "", evs)
  else
    let searchStr := match infoType with
      | .dnsServerAddress => DNS_ADDRESS_OPTION
      | .defaultGatewayAddress => DEFAULT_GW_OPTION
    match env.file with
    | .error e => (e, "", evs)
    | .ok lines =>
        match lines.find? (fun l => (findSubstrIdx searchStr.toList l.toList).isSome) with
        | none => (LeResult.notFound, "", evs)
        | some line =>
            let i := (findSubstrIdx searchStr.toList line.toList).getD 0
            let src : List Char := line.toList.drop (i + searchStr.length + 1)
            let res := if utf8CopyOverflows ⟨src⟩ destSizeBytes
              then LeResult.overflow else LeResult.ok
            let copied := src.take (destSizeBytes - 1)
            (res, ⟨copied.takeWhile (· ≠ ';')⟩, evs)

/-- `strncpy(slot, token, size)` into a pre-zeroed fixed-width slot. -/
def strncpyStr (token : String) (size : Nat) : String :=
  ⟨token.toList.take size⟩

/-- The token loop of `GetLeaseAddresses`: classify each token as IPv6 iff it
contains `:`, and append it to the corresponding output array while fewer than
`numAddresses` tokens of that family have been filled; excess tokens are
skipped. -/
def fillLeaseTokens (numAddresses v4AddrSize v6AddrSize : Nat) :
    List String → Nat → Nat → List String × List String
  | [], _, _ => ([], [])
  | token :: rest, v4Cnt, v6Cnt =>
      let isIpv6 := token.toList.contains ':'
      if !isIpv6 && v4Cnt < numAddresses then
        let (v4s, v6s) :=
          fillLeaseTokens numAddresses v4AddrSize v6AddrSize rest (v4Cnt + 1) v6Cnt
        (strncpyStr token v4AddrSize :: v4s, v6s)
      else if isIpv6 && v6Cnt < numAddresses then
        let (v4s, v6s) :=
          fillLeaseTokens numAddresses v4AddrSize v6AddrSize rest v4Cnt (v6Cnt + 1)
        (v4s, strncpyStr token v6AddrSize :: v6s)
      else
        fillLeaseTokens numAddresses v4AddrSize v6AddrSize rest v4Cnt v6Cnt

/-- `GetLeaseAddresses`: reject more than `MAX_NUM_DNS_ADDRESS_BY_TYPE`
requested addresses; fetch the option value into the local 126-byte buffer;
on `LE_OK` split it on spaces (`strtok_r`, which produces no empty tokens) and
fill up to `numAddresses` per family.  The lease result is returned
unchanged. -/
def GetLeaseAddresses (intf : String) (infoType : DhcpAddress)
    (v4AddrSize v6AddrSize numAddresses : Nat) (env : LeaseEnv) :
    LeResult × List String × List String × List Ev :=
  if MAX_NUM_DNS_ADDRESS_BY_TYPE < numAddresses then (LeResult.fault, [], [], [])
  else
    let (result, buf, evs) :=
      GetDhcpLeaseFileEntry intf infoType ADDRESS_BUFFER_BYTES env
    if result = LeResult.ok then
      let tokens :=
        ((splitChar ' ' buf.toList).map (fun cs => (⟨cs⟩ : String))).filter (· ≠ "")
      let (v4s, v6s) := fillLeaseTokens numAddresses v4AddrSize v6AddrSize tokens 0 0
      (result, v4s, v6s, evs)
    else (result, [], [], evs)

/-! ## Channel records and `le_net_SetDefaultGW` -/

/-- The fields of `le_dcs_channelDb_t` this component reads. -/
structure ChannelDb where
  channelName : String
  technology : Nat
  deriving DecidableEq, Repr

/-- The technology-validity check
`(LE_DCS_TECH_UNKNOWN == tech) || (LE_DCS_TECH_MAX <= tech)` (negated). -/
def techValid (tech : Nat) : Bool :=
  !(tech = LE_DCS_TECH_UNKNOWN || LE_DCS_TECH_MAX ≤ tech)

/-- Oracles consumed by `le_net_SetDefaultGW`: the channel registry lookup,
the per-technology interface lookup, the cellular gateway-address provider,
the lease-file environment and the adapter's set-gateway entry point. -/
structure SetGwEnv where
  channelDb : Option ChannelDb
  netIntf : Nat → LeResult × String
  cellGwAddrs : LeResult × String × String
  lease : LeaseEnv
  setGw : String → String → Bool → LeResult

/-- The address-sourcing dispatch of `le_net_SetDefaultGW`: query the cellular
technology provider when the channel is cellular, otherwise read the `routers`
option of the interface's lease file (one address per family). -/
def gwAddrQuery (env : SetGwEnv) (tech : Nat) (intf : String) :
    LeResult × String × String × List Ev :=
  if tech = LE_DCS_TECH_CELLULAR then
    let (r, v4, v6) := env.cellGwAddrs
    (r, v4, v6, [Ev.cellularQuery])
  else
    let (r, v4s, v6s, evs) :=
      GetLeaseAddresses intf .defaultGatewayAddress
        PA_DCS_IPV4_ADDR_MAX_BYTES PA_DCS_IPV6_ADDR_MAX_BYTES
        MAX_NUM_DEFAULT_GATEWAY_ADDRESS_BY_TYPE env.lease
    (r, v4s.getD 0 "", v6s.getD 0 "", evs)

/-- `le_net_SetDefaultGW`: validate the channel and its technology, obtain the
interface, source the v4/v6 gateway addresses from the cellular provider
(cellular) or the lease file (otherwise), fail if both are empty; then attempt
the v6 set first and the v4 set second, marking the calling session's archived
snapshot's `set*GwToSystem` flag on each success (when a snapshot exists);
`LE_OK` iff at least one family succeeded. -/
def le_net_SetDefaultGW (sessionRef : Session) (env : SetGwEnv) (st : GwStack) :
    LeResult × GwStack × List Ev :=
  match env.channelDb with
  | none => (LeResult.fault, st, [])
  | some channelDb =>
    if !techValid channelDb.technology then (LeResult.unsupported, st, [])
    else
      let (ret, intf) := env.netIntf channelDb.technology
      if ret ≠ LeResult.ok then (LeResult.fault, st, [])
      else
        let (ret, v4GwAddr, v6GwAddr, evs1) :=
          gwAddrQuery env channelDb.technology intf
        if ret ≠ LeResult.ok then (ret, st, evs1)
        else if v6GwAddr = "" && v4GwAddr = "" then (LeResult.fault, st, evs1)
        else
          let hasDb := (GetDefaultGwConfigDb sessionRef st).isSome
          let (v6Ret, st2, evs2) :=
            if v6GwAddr ≠ "" then
              let r := env.setGw intf v6GwAddr true
              let st2 := if r = LeResult.ok && hasDb then
                  updateFirstP (sessionEq sessionRef)
                    (fun b => { b with setV6GwToSystem := true }) st
                else st
              (r, st2, [Ev.setDefaultGateway intf v6GwAddr true])
            else (LeResult.fault, st, [])
          let (v4Ret, st3, evs3) :=
            if v4GwAddr ≠ "" then
              let r := env.setGw intf v4GwAddr false
              let st3 := if r = LeResult.ok && hasDb then
                  updateFirstP (sessionEq sessionRef)
                    (fun b => { b with setV4GwToSystem := true }) st2
                else st2
              (r, st3, [Ev.setDefaultGateway intf v4GwAddr false])
            else (LeResult.fault, st2, [])
          (if v4Ret = LeResult.ok || v6Ret = LeResult.ok
            then LeResult.ok else LeResult.fault, st3, evs1 ++ evs2 ++ evs3)

/-! ## `le_net_GetDefaultGW` and `le_net_GetDNS` -/

/-- Modelled from the spec: the width of the IPv4 slots of the output structs
of `le_net.api` (not under `src/`). -/
def LE_NET_IPV4ADDR_MAX_BYTES : Nat := 16

/-- Modelled from the spec: the width of the IPv6 slots of the output structs
of `le_net.api` (not under `src/`). -/
def LE_NET_IPV6ADDR_MAX_BYTES : Nat := 46

/-- `le_net_DefaultGatewayAddresses_t`. -/
structure DefaultGatewayAddresses where
  ipv4Addr : String
  ipv6Addr : String
  deriving DecidableEq, Repr

/-- `le_net_DnsServerAddresses_t`. -/
structure DnsServerAddresses where
  ipv4Addr1 : String
  ipv4Addr2 : String
  ipv6Addr1 : String
  ipv6Addr2 : String
  deriving DecidableEq, Repr

/-- `le_net_GetDefaultGW`: `LE_FAULT` on a NULL output pointer, an invalid
channel or a failed interface lookup; otherwise read the channel interface's
lease file for the `routers` option (one address per family) and return the
lease result as is.  There is no technology-validity check and no cellular
branch. -/
def le_net_GetDefaultGW (addrIsNull : Bool) (channelDb : Option ChannelDb)
    (netIntf : Nat → LeResult × String) (lease : LeaseEnv) :
    LeResult × DefaultGatewayAddresses × List Ev :=
  let blank : DefaultGatewayAddresses := { ipv4Addr := "", ipv6Addr := "" }
  if addrIsNull then (LeResult.fault, blank, [])
  else
    match channelDb with
    | none => (LeResult.fault, blank, [])
    | some ch =>
        let (ret, intf) := netIntf ch.technology
        if ret ≠ LeResult.ok then (LeResult.fault, blank, [])
        else
          let (r, v4s, v6s, evs) :=
            GetLeaseAddresses intf .defaultGatewayAddress
              LE_NET_IPV4ADDR_MAX_BYTES LE_NET_IPV6ADDR_MAX_BYTES
              MAX_NUM_DEFAULT_GATEWAY_ADDRESS_BY_TYPE lease
          (r, { ipv4Addr := v4s.getD 0 "", ipv6Addr := v6s.getD 0 "" }, evs)

/-- `le_net_GetDNS`: `LE_FAULT` on a NULL output pointer, an invalid channel,
a failed interface lookup or a failed lease read; otherwise copy the up to two
addresses per family from the lease file into the output struct. -/
def le_net_GetDNS (addrIsNull : Bool) (channelDb : Option ChannelDb)
    (netIntf : Nat → LeResult × String) (lease : LeaseEnv) :
    LeResult × DnsServerAddresses × List Ev :=
  let blank : DnsServerAddresses :=
    { ipv4Addr1 := "", ipv4Addr2 := "", ipv6Addr1 := "", ipv6Addr2 := "" }
  if addrIsNull then (LeResult.fault, blank, [])
  else
    match channelDb with
    | none => (LeResult.fault, blank, [])
    | some ch =>
        let (ret, intf) := netIntf ch.technology
        if ret ≠ LeResult.ok then (LeResult.fault, blank, [])
        else
          let (r, v4s, v6s, evs) :=
            GetLeaseAddresses intf .dnsServerAddress
              PA_DCS_IPV4_ADDR_MAX_BYTES PA_DCS_IPV6_ADDR_MAX_BYTES
              MAX_NUM_DNS_ADDRESS_BY_TYPE lease
          if r ≠ LeResult.ok then (LeResult.fault, blank, evs)
          else
            (r, { ipv4Addr1 := utf8Copy (v4s.getD 0 "") LE_NET_IPV4ADDR_MAX_BYTES
                  ipv4Addr2 := utf8Copy (v4s.getD 1 "") LE_NET_IPV4ADDR_MAX_BYTES
                  ipv6Addr1 := utf8Copy (v6s.getD 0 "") LE_NET_IPV6ADDR_MAX_BYTES
                  ipv6Addr2 := utf8Copy (v6s.getD 1 "") LE_NET_IPV6ADDR_MAX_BYTES },
              evs)

/-! ## Prefix-length parsing and route changes -/

/-- Value of a decimal digit run. -/
def digitsVal (cs : List Char) : Nat :=
  cs.foldl (fun a c => a * 10 + (c.toNat - '0'.toNat)) 0

/-- libc `strtol(input, ..., 10)`: skip leading whitespace, an optional sign,
then the longest run of decimal digits; trailing non-digit content is
ignored; no digits yields 0.  (On the at-most-3-character inputs reaching it
here the value fits an `int16_t`, so the cast in the caller never wraps.) -/
def strtol10 (s : List Char) : Int :=
  match s.dropWhile isSpaceChar with
  | [] => 0
  | c :: r =>
      if c = '-' then -(Int.ofNat (digitsVal (r.takeWhile Char.isDigit)))
      else if c = '+' then Int.ofNat (digitsVal (r.takeWhile Char.isDigit))
      else Int.ofNat (digitsVal ((c :: r).takeWhile Char.isDigit))

/-- `DcsConvertPrefixLengthString`: NULL or empty input yields 0, input longer
than `IPV6_PREFIX_LEN_STR_LENGTH` (3) characters yields -1, otherwise the
`strtol` value of the string. -/
def DcsConvertPrefixLengthString : Option String → Int
  | none => 0
  | some input =>
      let inputLen := input.length
      if inputLen = 0 then 0
      else if IPV6_PREFIX_LEN_STR_LENGTH < inputLen then -1
      else strtol10 input.toList

/-- The bit-count loop of `ConvertSubnetMaskToPrefixLength`
(`while (s_addr != 0) { if (s_addr & 1) prefixLength++; s_addr >>= 1; }`);
the fuel bounds the 32 iterations a 32-bit value can need. -/
def popCountLoop (fuel n : Nat) : Nat :=
  match fuel with
  | 0 => 0
  | f + 1 => if n = 0 then 0 else n % 2 + popCountLoop f (n / 2)

/-- `ConvertSubnetMaskToPrefixLength`: parse the dotted-quad mask with
`inet_aton` (the `aton` oracle; `LE_FAULT` if it rejects), count the set bits
of the 32-bit value (byte order does not affect the count), and `snprintf` the
decimal into the `prefixLengthSz`-byte buffer; `LE_OVERFLOW` iff the untruncated
decimal is longer than `prefixLengthSz`. -/
def ConvertSubnetMaskToPrefixLength (subnetMask : String) (prefixLengthSz : Nat)
    (aton : String → Option Nat) : LeResult × String :=
  match aton subnetMask with
  | none => (LeResult.fault, "")
  | some v =>
      let n := popCountLoop 32 v
      let str := toString n
      if prefixLengthSz < str.length then (LeResult.overflow, "")
      else (LeResult.ok, ⟨str.toList.take (prefixLengthSz - 1)⟩)

/-- Modelled from the spec: libc `inet_pton(AF_INET)` / `inet_aton` (external
to this repository) on standard dotted-decimal input — four dot-separated
decimal parts of at most 3 digits each, each in `0..255`, combined
big-endian.  (`inet_aton` additionally accepts exotic numeric forms that no
claim here exercises.) -/
def parseDottedQuad (s : String) : Option Nat :=
  let parseOctet : List Char → Option Nat := fun t =>
    if t ≠ [] && t.length ≤ 3 && t.all Char.isDigit then
      let v := digitsVal t
      if v ≤ 255 then some v else none
    else none
  match (splitChar '.' s.toList).mapM parseOctet with
  | some [a, b, c, d] => some (((a * 256 + b) * 256 + c) * 256 + d)
  | _ => none

/-- Oracles consumed by `le_net_ChangeRoute`: channel registry, interface
lookup, the two libc address validators (`inet_pton` per family), libc
`inet_aton`, and the adapter's change-route entry point
(dest, prefix string, interface, isAdd). -/
structure RouteEnv where
  channelDb : Option ChannelDb
  netIntf : Nat → LeResult × String
  validV4 : String → Bool
  validV6 : String → Bool
  aton : String → Option Nat
  paChangeRoute : String → String → String → Bool → LeResult

/-- `DcsNetChangeRoute`: a NULL prefix becomes the empty string, then the
adapter's change-route entry point is called and its result returned. -/
def DcsNetChangeRoute (destAddr : String) (prefixLength : Option String)
    (intf : String) (isAdd : Bool)
    (pa : String → String → String → Bool → LeResult) : LeResult × List Ev :=
  let p := prefixLength.getD ""
  (pa destAddr p intf isAdd, [Ev.changeRoute destAddr p intf isAdd])

/-- `le_net_ChangeRoute`: validate the channel and technology; reject a NULL
destination; strip leading whitespace from destination and prefix; dispatch on
the destination's family (`inet_pton` v4 first, then v6, else
`LE_BAD_PARAMETER`); parse the prefix (`DcsConvertPrefixLengthString`),
rejecting values outside `[0, 128]` — except that on the IPv4 path an invalid
prefix that is itself a valid IPv4 literal is converted from a legacy netmask
to a prefix length (with a deprecation warning, and `LE_BAD_PARAMETER` if the
conversion fails); a parsed value of 0 normalizes the prefix to the empty
string; finally look up the interface and call `DcsNetChangeRoute`. -/
def le_net_ChangeRoute (env : RouteEnv) (destAddr0 prefixLength0 : Option String)
    (isAdd : Bool) : LeResult × List Ev :=
  match env.channelDb with
  | none => (LeResult.fault, [])
  | some channelDb =>
    if !techValid channelDb.technology then (LeResult.unsupported, [])
    else
      match destAddr0 with
      | none => (LeResult.badParameter, [])
      | some d0 =>
        let destAddr := stripLeadingSpace d0
        let pfx0 := prefixLength0.map stripLeadingSpace
        let validated : Except (LeResult × List Ev) (Option String × List Ev) :=
          if env.validV4 destAddr then
            match pfx0 with
            | none => .ok (none, [])
            | some ps =>
                let prefixLen := DcsConvertPrefixLengthString (some ps)
                if prefixLen < 0 || IPV6_PREFIX_LENGTH_MAX < prefixLen then
                  if env.validV4 ps then
                    match ConvertSubnetMaskToPrefixLength ps 3 env.aton with
                    | (LeResult.ok, conv) => .ok (some conv, [Ev.warnDeprecated])
                    | _ => .error (LeResult.badParameter, [Ev.warnDeprecated])
                  else .error (LeResult.badParameter, [])
                else if prefixLen = 0 then .ok (some "", [])
                else .ok (some ps, [])
          else if env.validV6 destAddr then
            match pfx0 with
            | none => .ok (none, [])
            | some ps =>
                let prefixLen := DcsConvertPrefixLengthString (some ps)
                if prefixLen < 0 || IPV6_PREFIX_LENGTH_MAX < prefixLen then
                  .error (LeResult.badParameter, [])
                else if prefixLen = 0 then .ok (some "", [])
                else .ok (some ps, [])
          else .error (LeResult.badParameter, [])
        match validated with
        | .error e => e
        | .ok (pfx, evs0) =>
            let (ret, intfName) := env.netIntf channelDb.technology
            if ret ≠ LeResult.ok then (ret, evs0)
            else
              let (r, evs1) :=
                DcsNetChangeRoute destAddr pfx intfName isAdd env.paChangeRoute
              (r, evs0 ++ evs1)

/-! ## Operation sequences over the gateway stack -/

/-- One public operation touching the gateway backup stack, bundled with the
oracle responses its external calls receive. -/
inductive GwOp where
  | backup (s : Session) (resp : PaGetGwResp)
  | setgw (s : Session) (env : SetGwEnv)
  | restore (s : Session) (setGw : String → String → Bool → LeResult)

/-- The calling session of an operation. -/
def GwOp.session : GwOp → Session
  | .backup s _ => s
  | .setgw s _ => s
  | .restore s _ => s

/-- State transition of one operation on the gateway stack. -/
def runGwOp (st : GwStack) : GwOp → GwStack
  | .backup s resp => le_net_BackupDefaultGW s resp st
  | .setgw s env => (le_net_SetDefaultGW s env st).2.1
  | .restore s g => (le_net_RestoreDefaultGW s g st).2.1

/-- State after a sequence of operations. -/
def runGwOps (st : GwStack) (ops : List GwOp) : GwStack :=
  ops.foldl runGwOp st

/-- The archived interface of the given family of a snapshot. -/
def famIntf (isIpv6 : Bool) (b : DefaultGwBackup) : String :=
  if isIpv6 then b.defaultV6Interface else b.defaultV4Interface

/-- The archived gateway address of the given family of a snapshot. -/
def famGw (isIpv6 : Bool) (b : DefaultGwBackup) : String :=
  if isIpv6 then b.defaultV6GW else b.defaultV4GW

/-- The `set*GwToSystem` flag of the given family of a snapshot. -/
def famFlag (isIpv6 : Bool) (b : DefaultGwBackup) : Bool :=
  if isIpv6 then b.setV6GwToSystem else b.setV4GwToSystem

/-- The adapter set-default-gateway calls of the given family among a list of
events. -/
def setGwCallsFor (isIpv6 : Bool) (evs : List Ev) : List Ev :=
  evs.filter fun e =>
    match e with
    | Ev.setDefaultGateway _ _ v => v == isIpv6
    | _ => false

/-- Whether an operation is a `le_net_SetDefaultGW` call by session `s`. -/
def GwOp.isSetBy (s : Session) : GwOp → Prop
  | .setgw t _ => t = s
  | _ => False

/-- Both `set*GwToSystem` flags of session `s`'s snapshot are clear (or the
session has no snapshot): the condition under which a restore issues no
adapter call. -/
def flagsClear (s : Session) (st : GwStack) : Prop :=
  ∀ b, GetDefaultGwConfigDb s st = some b →
    b.setV4GwToSystem = false ∧ b.setV6GwToSystem = false

/-! ## List lemmas for the stack operations -/

theorem removeFirstP_cons_pos {p : α → Bool} {x : α} (xs : List α)
    (hx : p x = true) : removeFirstP p (x :: xs) = xs := by
  simp [removeFirstP, hx]

theorem removeFirstP_cons_neg {p : α → Bool} {x : α} (xs : List α)
    (hx : ¬p x = true) : removeFirstP p (x :: xs) = x :: removeFirstP p xs := by
  simp [removeFirstP, hx]

theorem updateFirstP_cons_pos {p : α → Bool} {f : α → α} {x : α} (xs : List α)
    (hx : p x = true) : updateFirstP p f (x :: xs) = f x :: xs := by
  simp [updateFirstP, hx]

theorem updateFirstP_cons_neg {p : α → Bool} {f : α → α} {x : α} (xs : List α)
    (hx : ¬p x = true) :
    updateFirstP p f (x :: xs) = x :: updateFirstP p f xs := by
  simp [updateFirstP, hx]

theorem updateFirstP_id (p : α → Bool) (l : List α) :
    updateFirstP p (fun x => x) l = l := by
  induction l with
  | nil => rfl
  | cons x xs ih => simp only [updateFirstP]; split <;> simp [ih]

theorem countP_removeFirstP_le (p q : α → Bool) (l : List α) :
    (removeFirstP p l).countP q ≤ l.countP q := by
  induction l with
  | nil => simp [removeFirstP]
  | cons x xs ih =>
      by_cases hx : p x
      · rw [removeFirstP_cons_pos xs hx]
        simp only [List.countP_cons]
        exact Nat.le_add_right _ _
      · rw [removeFirstP_cons_neg xs hx]
        simp only [List.countP_cons]
        exact Nat.add_le_add_right ih _

theorem find?_eq_none_countP {p : α → Bool} {l : List α}
    (h : l.find? p = none) : l.countP p = 0 :=
  List.countP_eq_zero.mpr (List.find?_eq_none.mp h)

theorem find?_some_countP_pos {p : α → Bool} {l : List α} {a : α}
    (h : l.find? p = some a) : 0 < l.countP p :=
  List.countP_pos_iff.mpr ⟨a, List.mem_of_find?_eq_some h, List.find?_some h⟩

theorem countP_removeFirstP_self {p : α → Bool} {l : List α} {a : α}
    (h : l.find? p = some a) :
    (removeFirstP p l).countP p = l.countP p - 1 := by
  induction l with
  | nil => simp at h
  | cons x xs ih =>
      by_cases hx : p x
      · rw [removeFirstP_cons_pos xs hx]
        simp [List.countP_cons, hx]
      · rw [List.find?_cons_of_neg _ hx] at h
        have hpos := find?_some_countP_pos h
        rw [removeFirstP_cons_neg xs hx]
        simp only [List.countP_cons, if_neg hx, ih h]
        omega

theorem countP_updateFirstP (p q : α → Bool) (f : α → α) (l : List α)
    (hf : ∀ x, q (f x) = q x) :
    (updateFirstP p f l).countP q = l.countP q := by
  induction l with
  | nil => rfl
  | cons x xs ih =>
      by_cases hx : p x
      · rw [updateFirstP_cons_pos xs hx]
        simp [List.countP_cons, hf]
      · rw [updateFirstP_cons_neg xs hx]
        simp [List.countP_cons, ih]

theorem find?_removeFirstP_disj (p q : α → Bool) (l : List α)
    (hpq : ∀ x, p x = true → q x = false) :
    (removeFirstP p l).find? q = l.find? q := by
  induction l with
  | nil => rfl
  | cons x xs ih =>
      by_cases hx : p x
      · rw [removeFirstP_cons_pos xs hx,
          List.find?_cons_of_neg _ (by simp [hpq x hx])]
      · rw [removeFirstP_cons_neg xs hx]
        by_cases hq : q x
        · rw [List.find?_cons_of_pos _ hq, List.find?_cons_of_pos _ hq]
        · rw [List.find?_cons_of_neg _ hq, List.find?_cons_of_neg _ hq, ih]

theorem find?_updateFirstP_disj (p q : α → Bool) (f : α → α) (l : List α)
    (hpq : ∀ x, p x = true → q x = false) (hf : ∀ x, q (f x) = q x) :
    (updateFirstP p f l).find? q = l.find? q := by
  induction l with
  | nil => rfl
  | cons x xs ih =>
      by_cases hx : p x
      · rw [updateFirstP_cons_pos xs hx,
          List.find?_cons_of_neg _ (by simp [hf, hpq x hx]),
          List.find?_cons_of_neg _ (by simp [hpq x hx])]
      · rw [updateFirstP_cons_neg xs hx]
        by_cases hq : q x
        · rw [List.find?_cons_of_pos _ hq, List.find?_cons_of_pos _ hq]
        · rw [List.find?_cons_of_neg _ hq, List.find?_cons_of_neg _ hq, ih]

theorem find?_removeFirstP_self {p : α → Bool} {l : List α}
    (h : l.countP p ≤ 1) : (removeFirstP p l).find? p = none := by
  induction l with
  | nil => rfl
  | cons x xs ih =>
      by_cases hx : p x
      · rw [removeFirstP_cons_pos xs hx]
        rw [List.countP_cons, if_pos hx] at h
        exact List.find?_eq_none.mpr fun y hy =>
          by simpa using List.countP_eq_zero.mp (by omega) y hy
      · rw [removeFirstP_cons_neg xs hx, List.find?_cons_of_neg _ hx]
        rw [List.countP_cons, if_neg hx] at h
        exact ih (by omega)

theorem find?_updateFirstP_self {p : α → Bool} {f : α → α} {l : List α} {a : α}
    (h : l.find? p = some a) (hf : ∀ x, p (f x) = p x) :
    (updateFirstP p f l).find? p = some (f a) := by
  induction l with
  | nil => simp at h
  | cons x xs ih =>
      by_cases hx : p x
      · rw [List.find?_cons_of_pos _ hx] at h
        cases h
        rw [updateFirstP_cons_pos xs hx,
          List.find?_cons_of_pos _ (by simp [hf, hx])]
      · rw [List.find?_cons_of_neg _ hx] at h
        rw [updateFirstP_cons_neg xs hx, List.find?_cons_of_neg _ hx]
        exact ih h

/-! ## Lemmas about the stack operations -/

theorem sessionEq_disj {s t : Session} (h : t ≠ s) :
    ∀ b, sessionEq t b = true → sessionEq s b = false := by
  intro b hb
  have hb2 : b.appSessionRef = t := by simpa [sessionEq] using hb
  simp [sessionEq, hb2, h]

theorem find?_some_session {s : Session} {st : GwStack} {a : DefaultGwBackup}
    (h : GetDefaultGwConfigDb s st = some a) : a.appSessionRef = s := by
  have := List.find?_some h
  simpa [sessionEq] using this

/-- After any `le_net_BackupDefaultGW`, the inserted snapshot sits at the head
of the stack, belongs to the calling session, and has both `set*GwToSystem`
flags clear: the fresh-allocation branch zeroes them, and the re-insert branch
overwrites them with the incoming snapshot's flags (when the address and
interface fields match) — which `le_net_BackupDefaultGW` always passes as
`false` — or with `false` outright. -/
theorem backup_cons (s : Session) (resp : PaGetGwResp) (st : GwStack) :
    ∃ b rest, le_net_BackupDefaultGW s resp st = b :: rest
      ∧ b.appSessionRef = s
      ∧ b.setV4GwToSystem = false ∧ b.setV6GwToSystem = false := by
  unfold le_net_BackupDefaultGW InsertDefaultGwBackupDb
  cases hf : GetDefaultGwConfigDb s st with
  | none =>
      simp only [hf]
      exact ⟨_, _, rfl, rfl, rfl, rfl⟩
  | some a =>
      have ha := find?_some_session hf
      simp only [hf]
      refine ⟨_, _, rfl, ha, ?_, ?_⟩ <;> simp

theorem find_backup_self (s : Session) (resp : PaGetGwResp) (st : GwStack) :
    ∃ b, GetDefaultGwConfigDb s (le_net_BackupDefaultGW s resp st) = some b
      ∧ b.setV4GwToSystem = false ∧ b.setV6GwToSystem = false := by
  obtain ⟨b, rest, heq, hs, h4, h6⟩ := backup_cons s resp st
  refine ⟨b, ?_, h4, h6⟩
  rw [heq]
  exact List.find?_cons_of_pos _ (by simp [sessionEq, hs])

theorem find_insert_ne {s t : Session} (h : t ≠ s)
    (data : DefaultGwBackup) (st : GwStack) :
    GetDefaultGwConfigDb s (InsertDefaultGwBackupDb t data st) =
      GetDefaultGwConfigDb s st := by
  unfold InsertDefaultGwBackupDb
  cases hf : GetDefaultGwConfigDb t st with
  | none =>
      simp only [hf]
      exact List.find?_cons_of_neg _ (by simp [sessionEq, h])
  | some a =>
      have ha := find?_some_session hf
      simp only [hf]
      unfold GetDefaultGwConfigDb
      rw [List.find?_cons_of_neg _ (by simp [sessionEq, ha, h])]
      exact find?_removeFirstP_disj _ _ _ (sessionEq_disj h)

/-- The state `le_net_SetDefaultGW` leaves behind is the input stack with at
most the calling session's snapshot's flags updated: two session-preserving
in-place updates of the session's first match. -/
theorem setgw_state_shape (s : Session) (env : SetGwEnv) (st : GwStack) :
    ∃ f g : DefaultGwBackup → DefaultGwBackup,
      (∀ b, (f b).appSessionRef = b.appSessionRef) ∧
      (∀ b, (g b).appSessionRef = b.appSessionRef) ∧
      (le_net_SetDefaultGW s env st).2.1 =
        updateFirstP (sessionEq s) g (updateFirstP (sessionEq s) f st) := by
  have hid : ∀ st2 : GwStack, st2 =
      updateFirstP (sessionEq s) (fun b => b) (updateFirstP (sessionEq s) (fun b => b) st2) := by
    intro st2; rw [updateFirstP_id, updateFirstP_id]
  unfold le_net_SetDefaultGW
  cases hch : env.channelDb with
  | none => exact ⟨_, _, fun _ => rfl, fun _ => rfl, hid st⟩
  | some ch =>
      simp only
      by_cases ht : techValid ch.technology
      · rcases hni : env.netIntf ch.technology with ⟨ret, intf⟩
        simp only [ht, hni, Bool.not_true, Bool.false_eq_true, if_false]
        by_cases hr : ret ≠ LeResult.ok
        · rw [if_pos hr]
          exact ⟨_, _, fun _ => rfl, fun _ => rfl, hid st⟩
        · rw [if_neg hr]
          rcases hq : gwAddrQuery env ch.technology intf with ⟨qr, v4a, v6a, qevs⟩
          simp only [hq]
          by_cases hqr : qr ≠ LeResult.ok
          · rw [if_pos hqr]
            exact ⟨_, _, fun _ => rfl, fun _ => rfl, hid st⟩
          · rw [if_neg hqr]
            by_cases hemp : (v6a = "" && v4a = "") = true
            · rw [if_pos hemp]
              exact ⟨_, _, fun _ => rfl, fun _ => rfl, hid st⟩
            · rw [if_neg hemp]
              by_cases h6 : v6a ≠ ""
              · by_cases hc6 : (env.setGw intf v6a true = LeResult.ok &&
                    (GetDefaultGwConfigDb s st).isSome) = true
                · by_cases h4 : v4a ≠ ""
                  · by_cases hc4 : (env.setGw intf v4a false = LeResult.ok &&
                        (GetDefaultGwConfigDb s st).isSome) = true
                    · refine ⟨fun b => { b with setV6GwToSystem := true },
                        fun b => { b with setV4GwToSystem := true },
                        fun _ => rfl, fun _ => rfl, ?_⟩
                      simp [h6, h4, hc6, hc4]
                    · refine ⟨fun b => { b with setV6GwToSystem := true },
                        fun b => b, fun _ => rfl, fun _ => rfl, ?_⟩
                      rw [updateFirstP_id]
                      simp [h6, h4, hc6, hc4]
                  · refine ⟨fun b => { b with setV6GwToSystem := true },
                      fun b => b, fun _ => rfl, fun _ => rfl, ?_⟩
                    rw [updateFirstP_id]
                    simp [h6, h4, hc6]
                · by_cases h4 : v4a ≠ ""
                  · by_cases hc4 : (env.setGw intf v4a false = LeResult.ok &&
                        (GetDefaultGwConfigDb s st).isSome) = true
                    · refine ⟨fun b => b,
                        fun b => { b with setV4GwToSystem := true },
                        fun _ => rfl, fun _ => rfl, ?_⟩
                      rw [updateFirstP_id]
                      simp [h6, h4, hc6, hc4]
                    · refine ⟨fun b => b, fun b => b,
                        fun _ => rfl, fun _ => rfl, ?_⟩
                      rw [← hid st]
                      simp [h6, h4, hc6, hc4]
                  · refine ⟨fun b => b, fun b => b,
                      fun _ => rfl, fun _ => rfl, ?_⟩
                    rw [← hid st]
                    simp [h6, h4, hc6]
              · by_cases h4 : v4a ≠ ""
                · by_cases hc4 : (env.setGw intf v4a false = LeResult.ok &&
                      (GetDefaultGwConfigDb s st).isSome) = true
                  · refine ⟨fun b => b,
                      fun b => { b with setV4GwToSystem := true },
                      fun _ => rfl, fun _ => rfl, ?_⟩
                    rw [updateFirstP_id]
                    simp [h6, h4, hc4]
                  · refine ⟨fun b => b, fun b => b,
                      fun _ => rfl, fun _ => rfl, ?_⟩
                    rw [← hid st]
                    simp [h6, h4, hc4]
                · refine ⟨fun b => b, fun b => b,
                    fun _ => rfl, fun _ => rfl, ?_⟩
                  rw [← hid st]
                  simp [h6, h4]
      · simp only [ht, Bool.not_false, if_true]
        exact ⟨_, _, fun _ => rfl, fun _ => rfl, hid st⟩

theorem find_runGwOp_ne {s : Session} (st : GwStack) (op : GwOp)
    (h : op.session ≠ s) :
    GetDefaultGwConfigDb s (runGwOp st op) = GetDefaultGwConfigDb s st := by
  cases op with
  | backup t resp => exact find_insert_ne h _ _
  | setgw t env =>
      have ht : t ≠ s := h
      obtain ⟨f, g, hf, hg, hst⟩ := setgw_state_shape t env st
      show GetDefaultGwConfigDb s (le_net_SetDefaultGW t env st).2.1 = _
      rw [hst]
      unfold GetDefaultGwConfigDb
      rw [find?_updateFirstP_disj _ _ _ _ (sessionEq_disj ht)
          (fun b => by simp [sessionEq, hg b]),
        find?_updateFirstP_disj _ _ _ _ (sessionEq_disj ht)
          (fun b => by simp [sessionEq, hf b])]
  | restore t gr =>
      have ht : t ≠ s := h
      show GetDefaultGwConfigDb s (le_net_RestoreDefaultGW t gr st).2.1 = _
      unfold le_net_RestoreDefaultGW
      cases hfind : GetDefaultGwConfigDb t st with
      | none => rfl
      | some b =>
          simp only [hfind]
          exact find?_removeFirstP_disj _ _ _ (sessionEq_disj ht)

theorem find_runGwOps_ne {s : Session} (ops : List GwOp) (st : GwStack)
    (h : ∀ op ∈ ops, op.session ≠ s) :
    GetDefaultGwConfigDb s (runGwOps st ops) = GetDefaultGwConfigDb s st := by
  induction ops generalizing st with
  | nil => rfl
  | cons op ops ih =>
      show GetDefaultGwConfigDb s (runGwOps (runGwOp st op) ops) = _
      rw [ih (runGwOp st op) (fun o ho => h o (List.mem_cons_of_mem op ho)),
        find_runGwOp_ne st op (h op (List.mem_cons_self op ops))]

theorem countSession_insert (t : Session) (data : DefaultGwBackup)
    (st : GwStack) (s : Session) (h : countSession s st ≤ 1) :
    countSession s (InsertDefaultGwBackupDb t data st) ≤ 1 := by
  unfold InsertDefaultGwBackupDb
  cases hf : GetDefaultGwConfigDb t st with
  | none =>
      simp only [hf]
      by_cases hts : t = s
      · subst hts
        have h0 : countSession t st = 0 := find?_eq_none_countP hf
        unfold countSession at *
        rw [List.countP_cons, if_pos (by simp [sessionEq])]
        omega
      · unfold countSession at *
        rw [List.countP_cons, if_neg (by simp [sessionEq, hts])]
        omega
  | some a =>
      have ha := find?_some_session hf
      simp only [hf]
      by_cases hts : t = s
      · subst hts
        have h1 := countP_removeFirstP_self hf
        have h2 := find?_some_countP_pos hf
        unfold countSession at *
        rw [List.countP_cons, if_pos (by simp [sessionEq, ha])]
        omega
      · have hle := countP_removeFirstP_le (sessionEq t) (sessionEq s) st
        unfold countSession at *
        rw [List.countP_cons, if_neg (by simp [sessionEq, ha, hts])]
        omega

theorem countSession_runGwOp (st : GwStack) (op : GwOp) (s : Session)
    (h : countSession s st ≤ 1) : countSession s (runGwOp st op) ≤ 1 := by
  cases op with
  | backup t resp => exact countSession_insert t _ st s h
  | setgw t env =>
      obtain ⟨f, g, hf, hg, hst⟩ := setgw_state_shape t env st
      show countSession s (le_net_SetDefaultGW t env st).2.1 ≤ 1
      rw [hst]
      unfold countSession
      rw [countP_updateFirstP _ _ _ _ (fun b => by simp [sessionEq, hg b]),
        countP_updateFirstP _ _ _ _ (fun b => by simp [sessionEq, hf b])]
      exact h
  | restore t gr =>
      show countSession s (le_net_RestoreDefaultGW t gr st).2.1 ≤ 1
      unfold le_net_RestoreDefaultGW
      cases hfind : GetDefaultGwConfigDb t st with
      | none => simpa using h
      | some b =>
          simp only [hfind]
          exact le_trans (countP_removeFirstP_le _ _ _) h

theorem countSession_runGwOps_le (ops : List GwOp) (st : GwStack) (s : Session)
    (h : countSession s st ≤ 1) : countSession s (runGwOps st ops) ≤ 1 := by
  induction ops generalizing st with
  | nil => simpa [runGwOps] using h
  | cons op ops ih =>
      show countSession s (runGwOps (runGwOp st op) ops) ≤ 1
      exact ih (runGwOp st op) (countSession_runGwOp st op s h)

theorem flagsClear_backup_self (s : Session) (resp : PaGetGwResp)
    (st : GwStack) : flagsClear s (le_net_BackupDefaultGW s resp st) := by
  intro b hb
  obtain ⟨b2, hfind, h4, h6⟩ := find_backup_self s resp st
  rw [hfind] at hb
  cases hb
  exact ⟨h4, h6⟩

theorem flagsClear_runGwOp (st : GwStack) (op : GwOp) (s : Session)
    (h1 : countSession s st ≤ 1) (h2 : flagsClear s st)
    (hop : ¬op.isSetBy s) : flagsClear s (runGwOp st op) := by
  cases op with
  | backup t resp =>
      by_cases hts : t = s
      · subst hts
        exact flagsClear_backup_self t resp st
      · intro b hb
        apply h2
        rwa [find_runGwOp_ne st (GwOp.backup t resp)
          (show (GwOp.backup t resp).session ≠ s from hts)] at hb
  | setgw t env =>
      have hts : t ≠ s := hop
      intro b hb
      apply h2
      rwa [find_runGwOp_ne st (GwOp.setgw t env)
        (show (GwOp.setgw t env).session ≠ s from hts)] at hb
  | restore t gr =>
      by_cases hts : t = s
      · subst hts
        intro b hb
        exfalso
        show False
        unfold runGwOp le_net_RestoreDefaultGW at hb
        cases hfind : GetDefaultGwConfigDb t st with
        | none =>
            simp only [hfind] at hb
            cases hb
        | some a =>
            simp only [hfind] at hb
            have hnone : GetDefaultGwConfigDb t (removeFirstP (sessionEq t) st) = none :=
              find?_removeFirstP_self h1
            rw [hnone] at hb
            cases hb
      · intro b hb
        apply h2
        rwa [find_runGwOp_ne st (GwOp.restore t gr)
          (show (GwOp.restore t gr).session ≠ s from hts)] at hb

theorem gwInv_runGwOps (ops : List GwOp) (st : GwStack) (s : Session)
    (h1 : countSession s st ≤ 1) (h2 : flagsClear s st)
    (hops : ∀ op ∈ ops, ¬op.isSetBy s) :
    countSession s (runGwOps st ops) ≤ 1 ∧ flagsClear s (runGwOps st ops) := by
  induction ops generalizing st with
  | nil => exact ⟨h1, h2⟩
  | cons op ops ih =>
      show countSession s (runGwOps (runGwOp st op) ops) ≤ 1 ∧ _
      exact ih (runGwOp st op) (countSession_runGwOp st op s h1)
        (flagsClear_runGwOp st op s h1 h2 (hops op (List.mem_cons_self op ops)))
        (fun o ho => hops o (List.mem_cons_of_mem op ho))

theorem restore_no_events_of_flagsClear (s : Session)
    (g : String → String → Bool → LeResult) (st : GwStack)
    (h : flagsClear s st) : (le_net_RestoreDefaultGW s g st).2.2 = [] := by
  unfold le_net_RestoreDefaultGW
  cases hf : GetDefaultGwConfigDb s st with
  | none => rfl
  | some b =>
      obtain ⟨h4, h6⟩ := h b hf
      simp [hf, h4, h6]

theorem restore_events (s : Session) (g : String → String → Bool → LeResult)
    (st : GwStack) (b : DefaultGwBackup)
    (hf : GetDefaultGwConfigDb s st = some b) :
    (le_net_RestoreDefaultGW s g st).2.2 =
      (if b.setV4GwToSystem
        then [Ev.setDefaultGateway b.defaultV4Interface b.defaultV4GW false]
        else []) ++
      (if b.setV6GwToSystem
        then [Ev.setDefaultGateway b.defaultV6Interface b.defaultV6GW true]
        else []) := by
  unfold le_net_RestoreDefaultGW
  simp only [hf]

theorem setGwCallsFor_restore (fam : Bool) (s : Session)
    (g : String → String → Bool → LeResult) (st : GwStack)
    (b : DefaultGwBackup) (hf : GetDefaultGwConfigDb s st = some b)
    (hflag : famFlag fam b = true) :
    setGwCallsFor fam (le_net_RestoreDefaultGW s g st).2.2 =
      [Ev.setDefaultGateway (famIntf fam b) (famGw fam b) fam] := by
  rw [restore_events s g st b hf]
  cases fam <;>
    cases h4 : b.setV4GwToSystem <;> cases h6 : b.setV6GwToSystem <;>
      simp_all [setGwCallsFor, famFlag, famIntf, famGw]

/-- When `le_net_SetDefaultGW` succeeds for family `fam` while the calling
session has an archived snapshot, the snapshot afterwards carries the family's
`set*GwToSystem` flag and its archived address/interface fields are
untouched. -/
theorem setgw_success_flag (s : Session) (env : SetGwEnv) (st : GwStack)
    (ch : ChannelDb) (intf v4a v6a : String) (qevs : List Ev)
    (snap : DefaultGwBackup) (fam : Bool)
    (hsnap : GetDefaultGwConfigDb s st = some snap)
    (hch : env.channelDb = some ch)
    (ht : techValid ch.technology = true)
    (hni : env.netIntf ch.technology = (LeResult.ok, intf))
    (hq : gwAddrQuery env ch.technology intf = (LeResult.ok, v4a, v6a, qevs))
    (hne : (if fam then v6a else v4a) ≠ "")
    (hok : env.setGw intf (if fam then v6a else v4a) fam = LeResult.ok) :
    ∃ snap2, GetDefaultGwConfigDb s (le_net_SetDefaultGW s env st).2.1 = some snap2
      ∧ famFlag fam snap2 = true
      ∧ famIntf fam snap2 = famIntf fam snap
      ∧ famGw fam snap2 = famGw fam snap := by
  have hasDb : (GetDefaultGwConfigDb s st).isSome = true := by rw [hsnap]; rfl
  have hupd6 := find?_updateFirstP_self (f := fun b =>
      { b with setV6GwToSystem := true }) hsnap (fun b => by simp [sessionEq])
  have hupd4 := find?_updateFirstP_self (f := fun b =>
      { b with setV4GwToSystem := true }) hsnap (fun b => by simp [sessionEq])
  have hupd46 := find?_updateFirstP_self (f := fun b =>
      { b with setV4GwToSystem := true }) hupd6 (fun b => by simp [sessionEq])
  unfold le_net_SetDefaultGW
  rw [hch]
  simp only [ht, hni, hq, Bool.not_true, Bool.false_eq_true, if_false]
  rw [if_neg (by simp), if_neg (by simp)]
  cases fam with
  | true =>
      simp only [if_pos trivial] at hne hok
      by_cases h4 : v4a ≠ ""
      · by_cases hc4 : env.setGw intf v4a false = LeResult.ok
        · simp [hne, hok, hasDb, h4, hc4]
          exact ⟨_, hupd46, rfl, rfl, rfl⟩
        · simp [hne, hok, hasDb, h4, hc4]
          exact ⟨_, hupd6, rfl, rfl, rfl⟩
      · simp [hne, hok, hasDb, h4]
        exact ⟨_, hupd6, rfl, rfl, rfl⟩
  | false =>
      simp only [Bool.false_eq_true, if_neg (by exact fun h => h : ¬False)] at hne hok
      by_cases h6 : v6a ≠ ""
      · by_cases hc6 : env.setGw intf v6a true = LeResult.ok
        · simp [hne, hok, hasDb, h6, hc6]
          exact ⟨_, hupd46, rfl, rfl, rfl⟩
        · simp [hne, hok, hasDb, h6, hc6]
          exact ⟨_, hupd4, rfl, rfl, rfl⟩
      · simp [hne, hok, hasDb, h6]
        exact ⟨_, hupd4, rfl, rfl, rfl⟩

/-! ## Claim theorems: the gateway backup stack -/

/-- Claim C3: for every session `s`, after every sequence of
`backup_default_gateway`, `set_default_gateway` and `restore_default_gateway`
operations starting from the initial empty stack, the gateway backup stack
contains at most one snapshot whose session field equals `s`. -/
theorem gw_stack_at_most_one_snapshot_per_session (ops : List GwOp) (s : Session) :
    countSession s (runGwOps [] ops) ≤ 1 :=
  countSession_runGwOps_le ops [] s (by simp [countSession])

/-- Claim C4: for every session, if `backup_default_gateway` is followed by
`restore_default_gateway` with no intervening `set_default_gateway` for that
session (operations by other sessions, and further backups or restores by the
same session, may intervene), the restore issues no platform adapter
`set_default_gateway` call on behalf of that session: its event list is
empty. -/
theorem backup_then_restore_issues_no_set_call
    (pre : List GwOp) (s : Session) (resp : PaGetGwResp) (mid : List GwOp)
    (hmid : ∀ op ∈ mid, ¬op.isSetBy s)
    (g : String → String → Bool → LeResult) :
    (le_net_RestoreDefaultGW s g
      (runGwOps (le_net_BackupDefaultGW s resp (runGwOps [] pre)) mid)).2.2 = [] := by
  have h1 : countSession s (runGwOps [] pre) ≤ 1 :=
    countSession_runGwOps_le pre [] s (by simp [countSession])
  have h1b : countSession s (le_net_BackupDefaultGW s resp (runGwOps [] pre)) ≤ 1 :=
    countSession_runGwOp (runGwOps [] pre) (GwOp.backup s resp) s h1
  have h2b : flagsClear s (le_net_BackupDefaultGW s resp (runGwOps [] pre)) :=
    flagsClear_backup_self s resp (runGwOps [] pre)
  obtain ⟨hc, hfc⟩ := gwInv_runGwOps mid _ s h1b h2b hmid
  exact restore_no_events_of_flagsClear s g _ hfc

theorem backup_then_restore_issues_no_set_call_witness :
    (∀ op ∈ ([] : List GwOp), ¬op.isSetBy (1 : Session)) ∧
    (le_net_RestoreDefaultGW 1 (fun _ _ _ => LeResult.fault)
      (runGwOps (le_net_BackupDefaultGW 1
        { v4Ret := LeResult.ok, v6Ret := LeResult.fault,
          defaultV4GW := "10.0.0.1", defaultV4Interface := "eth0",
          defaultV6GW := "", defaultV6Interface := "" }
        (runGwOps [] [])) [])).2.2 = [] :=
  ⟨by simp, backup_then_restore_issues_no_set_call [] 1 _ [] (by simp) _⟩

/-- Claim C2: if `set_default_gateway` succeeds for family `fam` (the adapter
set-call for that family's address on the channel's interface returns `LE_OK`)
while session `s` has a snapshot in the stack, then a later
`restore_default_gateway` by `s` — after any operations of other sessions —
issues exactly one platform adapter `set_default_gateway` call for family
`fam`, with the archived interface and gateway address of that snapshot as
arguments. -/
theorem set_success_then_restore_issues_archived_call
    (st : GwStack) (s : Session) (env : SetGwEnv) (ch : ChannelDb)
    (intf v4a v6a : String) (qevs : List Ev) (snap : DefaultGwBackup) (fam : Bool)
    (hsnap : GetDefaultGwConfigDb s st = some snap)
    (hch : env.channelDb = some ch)
    (ht : techValid ch.technology = true)
    (hni : env.netIntf ch.technology = (LeResult.ok, intf))
    (hq : gwAddrQuery env ch.technology intf = (LeResult.ok, v4a, v6a, qevs))
    (hne : (if fam then v6a else v4a) ≠ "")
    (hok : env.setGw intf (if fam then v6a else v4a) fam = LeResult.ok)
    (mid : List GwOp) (hmid : ∀ op ∈ mid, op.session ≠ s)
    (g : String → String → Bool → LeResult) :
    setGwCallsFor fam
      (le_net_RestoreDefaultGW s g
        (runGwOps (le_net_SetDefaultGW s env st).2.1 mid)).2.2 =
      [Ev.setDefaultGateway (famIntf fam snap) (famGw fam snap) fam] := by
  obtain ⟨snap2, hf2, hflag, hintf, hgw⟩ :=
    setgw_success_flag s env st ch intf v4a v6a qevs snap fam
      hsnap hch ht hni hq hne hok
  have hmidf : GetDefaultGwConfigDb s
      (runGwOps (le_net_SetDefaultGW s env st).2.1 mid) = some snap2 := by
    rw [find_runGwOps_ne mid _ hmid, hf2]
  rw [setGwCallsFor_restore fam s g _ snap2 hmidf hflag, hintf, hgw]

theorem set_success_then_restore_issues_archived_call_witness :
    setGwCallsFor false
      (le_net_RestoreDefaultGW 1 (fun _ _ _ => LeResult.ok)
        (runGwOps (le_net_SetDefaultGW 1
          { channelDb := some { channelName := "c", technology := LE_DCS_TECH_CELLULAR },
            netIntf := fun _ => (LeResult.ok, "rmnet0"),
            cellGwAddrs := (LeResult.ok, "192.0.2.1", ""),
            lease := { pathRes := LeResult.fault, file := Except.error LeResult.fault },
            setGw := fun _ _ _ => LeResult.ok }
          [{ appSessionRef := 1, defaultV4GW := "10.0.0.1",
             defaultV4Interface := "eth0", setV4GwToSystem := false,
             defaultV6GW := "", defaultV6Interface := "",
             setV6GwToSystem := false }]).2.1 [])).2.2 =
      [Ev.setDefaultGateway "eth0" "10.0.0.1" false] :=
  set_success_then_restore_issues_archived_call
    [{ appSessionRef := 1, defaultV4GW := "10.0.0.1",
       defaultV4Interface := "eth0", setV4GwToSystem := false,
       defaultV6GW := "", defaultV6Interface := "",
       setV6GwToSystem := false }] 1
    { channelDb := some { channelName := "c", technology := LE_DCS_TECH_CELLULAR },
      netIntf := fun _ => (LeResult.ok, "rmnet0"),
      cellGwAddrs := (LeResult.ok, "192.0.2.1", ""),
      lease := { pathRes := LeResult.fault, file := Except.error LeResult.fault },
      setGw := fun _ _ _ => LeResult.ok }
    { channelName := "c", technology := LE_DCS_TECH_CELLULAR }
    "rmnet0" "192.0.2.1" "" [Ev.cellularQuery]
    { appSessionRef := 1, defaultV4GW := "10.0.0.1",
      defaultV4Interface := "eth0", setV4GwToSystem := false,
      defaultV6GW := "", defaultV6Interface := "",
      setV6GwToSystem := false } false
    rfl rfl (by decide) rfl rfl (by decide) rfl [] (by simp)
    (fun _ _ _ => LeResult.ok)

/-- Claim C9: while a session has a snapshot in the stack,
`restore_default_gateway` removes and frees that snapshot unconditionally —
even when every attempted adapter set-call fails, in which case (with both
families marked installed) the operation returns `LE_FAULT`; consequently an
immediately following restore by the same session returns `LE_NOT_FOUND`. -/
theorem restore_removes_snapshot_even_on_fault
    (st : GwStack) (s : Session) (snap : DefaultGwBackup)
    (g : String → String → Bool → LeResult)
    (hfind : GetDefaultGwConfigDb s st = some snap)
    (hcount : countSession s st ≤ 1) :
    GetDefaultGwConfigDb s (le_net_RestoreDefaultGW s g st).2.1 = none
    ∧ (le_net_RestoreDefaultGW s g
        ((le_net_RestoreDefaultGW s g st).2.1)).1 = LeResult.notFound
    ∧ (snap.setV4GwToSystem = true → snap.setV6GwToSystem = true →
        (∀ i a v, g i a v ≠ LeResult.ok) →
        (le_net_RestoreDefaultGW s g st).1 = LeResult.fault) := by
  have hstate : (le_net_RestoreDefaultGW s g st).2.1 =
      removeFirstP (sessionEq s) st := by
    unfold le_net_RestoreDefaultGW; simp only [hfind]
  have hnone : GetDefaultGwConfigDb s (le_net_RestoreDefaultGW s g st).2.1 = none := by
    rw [hstate]; exact find?_removeFirstP_self hcount
  refine ⟨hnone, ?_, ?_⟩
  · conv_lhs => rw [le_net_RestoreDefaultGW]
    simp only [hnone]
  · intro h4 h6 hg
    have hg4 := hg snap.defaultV4Interface snap.defaultV4GW false
    have hg6 := hg snap.defaultV6Interface snap.defaultV6GW true
    unfold le_net_RestoreDefaultGW
    simp [hfind, h4, h6, hg4, hg6]

theorem restore_removes_snapshot_even_on_fault_witness :
    GetDefaultGwConfigDb 1
      (le_net_RestoreDefaultGW 1 (fun _ _ _ => LeResult.fault)
        [{ appSessionRef := 1, defaultV4GW := "10.0.0.1",
           defaultV4Interface := "eth0", setV4GwToSystem := true,
           defaultV6GW := "fe80::1", defaultV6Interface := "eth0",
           setV6GwToSystem := true }]).2.1 = none
    ∧ (le_net_RestoreDefaultGW 1 (fun _ _ _ => LeResult.fault)
        ((le_net_RestoreDefaultGW 1 (fun _ _ _ => LeResult.fault)
          [{ appSessionRef := 1, defaultV4GW := "10.0.0.1",
             defaultV4Interface := "eth0", setV4GwToSystem := true,
             defaultV6GW := "fe80::1", defaultV6Interface := "eth0",
             setV6GwToSystem := true }]).2.1)).1 = LeResult.notFound
    ∧ (le_net_RestoreDefaultGW 1 (fun _ _ _ => LeResult.fault)
        [{ appSessionRef := 1, defaultV4GW := "10.0.0.1",
           defaultV4Interface := "eth0", setV4GwToSystem := true,
           defaultV6GW := "fe80::1", defaultV6Interface := "eth0",
           setV6GwToSystem := true }]).1 = LeResult.fault := by
  obtain ⟨h1, h2, h3⟩ := restore_removes_snapshot_even_on_fault
    [{ appSessionRef := 1, defaultV4GW := "10.0.0.1",
       defaultV4Interface := "eth0", setV4GwToSystem := true,
       defaultV6GW := "fe80::1", defaultV6Interface := "eth0",
       setV6GwToSystem := true }] 1
    { appSessionRef := 1, defaultV4GW := "10.0.0.1",
      defaultV4Interface := "eth0", setV4GwToSystem := true,
      defaultV6GW := "fe80::1", defaultV6Interface := "eth0",
      setV6GwToSystem := true }
    (fun _ _ _ => LeResult.fault) rfl (by decide)
  exact ⟨h1, h2, h3 rfl rfl (fun _ _ _ => by decide)⟩

/-- Claim C1 (amended): on `backup_default_gateway` the snapshot's installed
flags are NOT preserved by field equality — `InsertDefaultGwBackupDb` sets
each flag to the *incoming* snapshot's flag when the archived gateway address
and interface both equal the incoming ones (and to `false` otherwise), and the
incoming snapshot built by `le_net_BackupDefaultGW` always carries cleared
flags; hence after every `backup_default_gateway` — re-insert or freshly
created alike — both installed flags are `false`. -/
theorem backup_always_clears_installed_flags
    (s : Session) (resp : PaGetGwResp) (st : GwStack) :
    (GetDefaultGwConfigDb s (le_net_BackupDefaultGW s resp st)).map
      (fun b => (b.setV4GwToSystem, b.setV6GwToSystem)) = some (false, false) := by
  obtain ⟨b, hfind, h4, h6⟩ := find_backup_self s resp st
  simp [hfind, h4, h6]

/-- Claim C1 counterexample: session 1 backs up `(10.0.0.1, eth0)`, then
`set_default_gateway` succeeds for IPv4 (marking the snapshot installed), then
backs up again while the adapter reports the identical system gateway — so
both the gateway address and the interface of the new incoming snapshot equal
the archived ones and the claim requires the installed flag to keep its value
`true`; the code leaves it `false`. -/
theorem backup_flag_preservation_counterexample :
    (GetDefaultGwConfigDb 1
        (le_net_SetDefaultGW 1
          { channelDb := some { channelName := "c", technology := LE_DCS_TECH_CELLULAR },
            netIntf := fun _ => (LeResult.ok, "eth0"),
            cellGwAddrs := (LeResult.ok, "192.0.2.1", ""),
            lease := { pathRes := LeResult.fault, file := Except.error LeResult.fault },
            setGw := fun _ _ _ => LeResult.ok }
          (le_net_BackupDefaultGW 1
            { v4Ret := LeResult.ok, v6Ret := LeResult.fault,
              defaultV4GW := "10.0.0.1", defaultV4Interface := "eth0",
              defaultV6GW := "", defaultV6Interface := "" } [])).2.1).map
      (fun b => (b.defaultV4GW, b.defaultV4Interface, b.setV4GwToSystem))
      = some ("10.0.0.1", "eth0", true)
    ∧ (GetDefaultGwConfigDb 1
        (le_net_BackupDefaultGW 1
          { v4Ret := LeResult.ok, v6Ret := LeResult.fault,
            defaultV4GW := "10.0.0.1", defaultV4Interface := "eth0",
            defaultV6GW := "", defaultV6Interface := "" }
          (le_net_SetDefaultGW 1
            { channelDb := some { channelName := "c", technology := LE_DCS_TECH_CELLULAR },
              netIntf := fun _ => (LeResult.ok, "eth0"),
              cellGwAddrs := (LeResult.ok, "192.0.2.1", ""),
              lease := { pathRes := LeResult.fault, file := Except.error LeResult.fault },
              setGw := fun _ _ _ => LeResult.ok }
            (le_net_BackupDefaultGW 1
              { v4Ret := LeResult.ok, v6Ret := LeResult.fault,
                defaultV4GW := "10.0.0.1", defaultV4Interface := "eth0",
                defaultV6GW := "", defaultV6Interface := "" } [])).2.1)).map
      (fun b => (b.defaultV4GW, b.defaultV4Interface, b.setV4GwToSystem))
      = some ("10.0.0.1", "eth0", false) :=
  ⟨rfl, rfl⟩

/-! ## Claim theorems: route validation and lease parsing -/

theorem dhcp_entry_events (intf : String) (infoType : DhcpAddress)
    (dsz : Nat) (env : LeaseEnv) :
    (GetDhcpLeaseFileEntry intf infoType dsz env).2.2 = [Ev.leaseRead intf] := by
  unfold GetDhcpLeaseFileEntry
  split
  · rfl
  · rcases henv : env.file with e | lines
    · simp only [henv]
    · simp only [henv]
      split
      · rfl
      · rfl

theorem cellularQuery_not_mem_lease (intf : String) (infoType : DhcpAddress)
    (a b n : Nat) (env : LeaseEnv) :
    Ev.cellularQuery ∉ (GetLeaseAddresses intf infoType a b n env).2.2.2 := by
  unfold GetLeaseAddresses
  split
  · simp
  · split
    rename_i r buf evs heq
    have hevs := dhcp_entry_events intf infoType ADDRESS_BUFFER_BYTES env
    rw [heq] at hevs
    simp only at hevs
    split <;> simp [hevs]

/-- Claim C5: `change_route` on a valid channel with a supported technology
returns `LE_BAD_PARAMETER` — with no adapter call and no other event — when
the destination address is NULL, or when after trimming leading whitespace it
is neither a valid IPv4 literal nor a valid IPv6 literal. -/
theorem change_route_invalid_dest_bad_parameter
    (env : RouteEnv) (ch : ChannelDb) (destAddr0 pfx0 : Option String) (isAdd : Bool)
    (hch : env.channelDb = some ch)
    (ht : techValid ch.technology = true)
    (hdest : destAddr0 = none ∨ ∃ d, destAddr0 = some d
      ∧ env.validV4 (stripLeadingSpace d) = false
      ∧ env.validV6 (stripLeadingSpace d) = false) :
    le_net_ChangeRoute env destAddr0 pfx0 isAdd = (LeResult.badParameter, []) := by
  unfold le_net_ChangeRoute
  rw [hch]
  simp only [ht, Bool.not_true, Bool.false_eq_true, if_false]
  rcases hdest with h | ⟨d, hd, hv4, hv6⟩
  · subst h; rfl
  · subst hd
    simp only [hv4, hv6, Bool.false_eq_true, if_false]

theorem change_route_invalid_dest_bad_parameter_witness :
    le_net_ChangeRoute
      { channelDb := some { channelName := "c", technology := LE_DCS_TECH_WIFI },
        netIntf := fun _ => (LeResult.ok, "wlan0"),
        validV4 := fun t => (parseDottedQuad t).isSome,
        validV6 := fun _ => false,
        aton := parseDottedQuad,
        paChangeRoute := fun _ _ _ _ => LeResult.ok }
      (some "abc") (some "24") true = (LeResult.badParameter, []) :=
  change_route_invalid_dest_bad_parameter _
    { channelName := "c", technology := LE_DCS_TECH_WIFI }
    (some "abc") (some "24") true rfl (by decide)
    (Or.inr ⟨"abc", rfl, rfl, rfl⟩)

/-- Claim C6 (amended): a non-null prefix-length input longer than 3
characters is invalid (yields -1); an input whose `strtol` scan consumes no
unsigned digits — after skipping leading whitespace it is empty, starts with
`-`, or its first character past an optional `+` is a non-digit — yields 0 or
a negative value; but digits followed by trailing non-digit content yield the
positive value of the leading digits (e.g. `"12a"` parses to 12), which the
calling `change_route` then treats as a *valid* prefix. -/
theorem prefix_parser_length_and_nondigit_behavior :
    (∀ s : String, 3 < s.length → DcsConvertPrefixLengthString (some s) = -1)
    ∧ (∀ s : String,
        (match s.toList.dropWhile isSpaceChar with
         | [] => True
         | c :: r =>
             if c = '-' then True
             else if c = '+' then r.takeWhile Char.isDigit = []
             else (c :: r).takeWhile Char.isDigit = []) →
        DcsConvertPrefixLengthString (some s) ≤ 0)
    ∧ DcsConvertPrefixLengthString (some "12a") = 12 := by
  refine ⟨?_, ?_, rfl⟩
  · intro s h
    simp only [DcsConvertPrefixLengthString]
    rw [if_neg (by omega), if_pos (by simpa [IPV6_PREFIX_LEN_STR_LENGTH] using h)]
  · intro s h
    simp only [DcsConvertPrefixLengthString]
    by_cases h0 : s.length = 0
    · rw [if_pos h0]
    · rw [if_neg h0]
      by_cases h3 : IPV6_PREFIX_LEN_STR_LENGTH < s.length
      · rw [if_pos h3]; decide
      · rw [if_neg h3]
        unfold strtol10
        cases hd : s.toList.dropWhile isSpaceChar with
        | nil => simp [hd]
        | cons c r =>
            simp only [hd] at h
            simp only [hd]
            by_cases hc1 : c = '-'
            · rw [if_pos hc1]
              simp only [Int.ofNat_eq_natCast]
              omega
            · by_cases hc2 : c = '+'
              · rw [if_neg hc1, if_pos hc2] at h
                rw [if_neg hc1, if_pos hc2, h]
                decide
              · rw [if_neg hc1, if_neg hc2] at h
                rw [if_neg hc1, if_neg hc2, h]
                decide

theorem prefix_parser_length_and_nondigit_behavior_witness :
    DcsConvertPrefixLengthString (some "1234") = -1
    ∧ DcsConvertPrefixLengthString (some "a") ≤ 0 :=
  ⟨prefix_parser_length_and_nondigit_behavior.1 "1234" (by decide),
    prefix_parser_length_and_nondigit_behavior.2.1 "a" rfl⟩

/-- Claim C6 counterexample: `"12a"` contains non-digit content and is within
3 characters, yet the parser yields 12 — neither 0 nor negative — and
`change_route` treats it as a valid prefix: with a valid IPv4 destination the
adapter is called (with the original string `"12a"` as the prefix) and the
operation succeeds instead of rejecting the input. -/
theorem prefix_parser_nondigit_counterexample :
    DcsConvertPrefixLengthString (some "12a") = 12
    ∧ ¬(∀ c ∈ "12a".toList, c.isDigit)
    ∧ ¬((12 : Int) = 0 ∨ (12 : Int) < 0)
    ∧ le_net_ChangeRoute
        { channelDb := some { channelName := "c", technology := LE_DCS_TECH_WIFI },
          netIntf := fun _ => (LeResult.ok, "wlan0"),
          validV4 := fun t => (parseDottedQuad t).isSome,
          validV6 := fun _ => false,
          aton := parseDottedQuad,
          paChangeRoute := fun _ _ _ _ => LeResult.ok }
        (some "10.0.0.0") (some "12a") true
      = (LeResult.ok, [Ev.changeRoute "10.0.0.0" "12a" "wlan0" true]) :=
  ⟨rfl, by decide, by decide, rfl⟩

/-- Claim C7: `change_route` with a valid IPv4 destination and prefix input
`"255.255.255.0"` takes the legacy netmask path — the decimal parse yields -1
(too long), the prefix is itself a valid IPv4 literal, so its 32-bit value's
set bits are counted and formatted as decimal — and the platform adapter
receives prefix string `"24"`, preceded by the deprecation warning. -/
theorem change_route_legacy_netmask
    (env : RouteEnv) (ch : ChannelDb) (d : String) (isAdd : Bool) (intf : String)
    (hch : env.channelDb = some ch)
    (ht : techValid ch.technology = true)
    (hv4 : env.validV4 (stripLeadingSpace d) = true)
    (hm : env.validV4 "255.255.255.0" = true)
    (haton : env.aton "255.255.255.0" = some 4294967040)
    (hni : env.netIntf ch.technology = (LeResult.ok, intf)) :
    le_net_ChangeRoute env (some d) (some "255.255.255.0") isAdd =
      (env.paChangeRoute (stripLeadingSpace d) "24" intf isAdd,
        [Ev.warnDeprecated,
          Ev.changeRoute (stripLeadingSpace d) "24" intf isAdd]) := by
  have hcv : ConvertSubnetMaskToPrefixLength "255.255.255.0" 3 env.aton =
      (LeResult.ok, "24") := by
    unfold ConvertSubnetMaskToPrefixLength
    rw [haton]
    rfl
  unfold le_net_ChangeRoute
  rw [hch]
  simp only [ht, Bool.not_true, Bool.false_eq_true, if_false, Option.map_some']
  rw [show stripLeadingSpace "255.255.255.0" = "255.255.255.0" from rfl]
  simp only [hv4, if_true]
  rw [show DcsConvertPrefixLengthString (some "255.255.255.0") = -1 from rfl]
  rw [if_pos (by decide)]
  simp only [hm, if_true, hcv]
  simp only [hni]
  rfl

theorem change_route_legacy_netmask_witness :
    le_net_ChangeRoute
      { channelDb := some { channelName := "c", technology := LE_DCS_TECH_WIFI },
        netIntf := fun _ => (LeResult.ok, "wlan0"),
        validV4 := fun t => (parseDottedQuad t).isSome,
        validV6 := fun _ => false,
        aton := parseDottedQuad,
        paChangeRoute := fun _ _ _ _ => LeResult.ok }
      (some "10.0.0.0") (some "255.255.255.0") true =
      (LeResult.ok,
        [Ev.warnDeprecated, Ev.changeRoute "10.0.0.0" "24" "wlan0" true]) :=
  change_route_legacy_netmask _
    { channelName := "c", technology := LE_DCS_TECH_WIFI }
    "10.0.0.0" true "wlan0" rfl (by decide) rfl rfl rfl rfl

/-- Claim C8: for a lease file whose matching line is
`domain-name-servers 1.1.1.1 8.8.8.8;`, `get_dns` returns
`ipv4Addr1 = "1.1.1.1"` and `ipv4Addr2 = "8.8.8.8"` with both IPv6 outputs
empty: the parser takes the text after the keyword up to the `;`, tokenizes
on spaces, classifies a token as IPv6 iff it contains `:`, and fills up to
two tokens per family. -/
theorem get_dns_lease_line_scenario :
    le_net_GetDNS false (some { channelName := "c", technology := LE_DCS_TECH_WIFI })
      (fun _ => (LeResult.ok, "wlan0"))
      { pathRes := LeResult.ok,
        file := Except.ok ["domain-name-servers 1.1.1.1 8.8.8.8;\n"] } =
    (LeResult.ok,
      { ipv4Addr1 := "1.1.1.1", ipv4Addr2 := "8.8.8.8",
        ipv6Addr1 := "", ipv6Addr2 := "" },
      [Ev.leaseRead "wlan0"]) := rfl

/-- Claim C10: for a valid channel with a non-null output buffer,
`get_default_gateway` sources its addresses exclusively from the DHCP lease
file of the channel's interface: its result is the lease read's, it never
queries the cellular technology provider, and it performs no
technology-validity check — any two technologies with the same interface
lookup behave identically (in particular `UNKNOWN` or out-of-range values are
not rejected with `LE_UNSUPPORTED`) — unlike `set_default_gateway`, which
rejects `UNKNOWN` with `LE_UNSUPPORTED` and queries the cellular provider on
cellular channels. -/
theorem get_default_gw_lease_only_no_tech_check
    (ch : ChannelDb) (netIntf : Nat → LeResult × String) (lease : LeaseEnv)
    (intf : String)
    (hni : netIntf ch.technology = (LeResult.ok, intf)) :
    (le_net_GetDefaultGW false (some ch) netIntf lease =
      ((GetLeaseAddresses intf DhcpAddress.defaultGatewayAddress
          LE_NET_IPV4ADDR_MAX_BYTES LE_NET_IPV6ADDR_MAX_BYTES
          MAX_NUM_DEFAULT_GATEWAY_ADDRESS_BY_TYPE lease).1,
        { ipv4Addr := ((GetLeaseAddresses intf DhcpAddress.defaultGatewayAddress
            LE_NET_IPV4ADDR_MAX_BYTES LE_NET_IPV6ADDR_MAX_BYTES
            MAX_NUM_DEFAULT_GATEWAY_ADDRESS_BY_TYPE lease).2.1).getD 0 "",
          ipv6Addr := ((GetLeaseAddresses intf DhcpAddress.defaultGatewayAddress
            LE_NET_IPV4ADDR_MAX_BYTES LE_NET_IPV6ADDR_MAX_BYTES
            MAX_NUM_DEFAULT_GATEWAY_ADDRESS_BY_TYPE lease).2.2.1).getD 0 "" },
        (GetLeaseAddresses intf DhcpAddress.defaultGatewayAddress
          LE_NET_IPV4ADDR_MAX_BYTES LE_NET_IPV6ADDR_MAX_BYTES
          MAX_NUM_DEFAULT_GATEWAY_ADDRESS_BY_TYPE lease).2.2.2))
    ∧ Ev.cellularQuery ∉ (le_net_GetDefaultGW false (some ch) netIntf lease).2.2
    ∧ (∀ tech2, netIntf tech2 = netIntf ch.technology →
        le_net_GetDefaultGW false (some { ch with technology := tech2 }) netIntf lease =
          le_net_GetDefaultGW false (some ch) netIntf lease)
    ∧ (∀ (s : Session) (env : SetGwEnv) (st : GwStack) (ch2 : ChannelDb),
        env.channelDb = some ch2 → ch2.technology = LE_DCS_TECH_UNKNOWN →
        le_net_SetDefaultGW s env st = (LeResult.unsupported, st, []))
    ∧ (∀ (s : Session) (env : SetGwEnv) (st : GwStack) (ch2 : ChannelDb)
        (intf2 : String),
        env.channelDb = some ch2 → ch2.technology = LE_DCS_TECH_CELLULAR →
        env.netIntf LE_DCS_TECH_CELLULAR = (LeResult.ok, intf2) →
        Ev.cellularQuery ∈ (le_net_SetDefaultGW s env st).2.2) := by
  have h1 : le_net_GetDefaultGW false (some ch) netIntf lease =
      ((GetLeaseAddresses intf DhcpAddress.defaultGatewayAddress
          LE_NET_IPV4ADDR_MAX_BYTES LE_NET_IPV6ADDR_MAX_BYTES
          MAX_NUM_DEFAULT_GATEWAY_ADDRESS_BY_TYPE lease).1,
        { ipv4Addr := ((GetLeaseAddresses intf DhcpAddress.defaultGatewayAddress
            LE_NET_IPV4ADDR_MAX_BYTES LE_NET_IPV6ADDR_MAX_BYTES
            MAX_NUM_DEFAULT_GATEWAY_ADDRESS_BY_TYPE lease).2.1).getD 0 "",
          ipv6Addr := ((GetLeaseAddresses intf DhcpAddress.defaultGatewayAddress
            LE_NET_IPV4ADDR_MAX_BYTES LE_NET_IPV6ADDR_MAX_BYTES
            MAX_NUM_DEFAULT_GATEWAY_ADDRESS_BY_TYPE lease).2.2.1).getD 0 "" },
        (GetLeaseAddresses intf DhcpAddress.defaultGatewayAddress
          LE_NET_IPV4ADDR_MAX_BYTES LE_NET_IPV6ADDR_MAX_BYTES
          MAX_NUM_DEFAULT_GATEWAY_ADDRESS_BY_TYPE lease).2.2.2) := by
    unfold le_net_GetDefaultGW
    simp only [hni]
    rfl
  refine ⟨h1, ?_, ?_, ?_, ?_⟩
  · rw [h1]
    exact cellularQuery_not_mem_lease _ _ _ _ _ _
  · intro tech2 h
    have hni2 : netIntf tech2 = (LeResult.ok, intf) := by rw [h, hni]
    have h2 : le_net_GetDefaultGW false (some { ch with technology := tech2 })
        netIntf lease =
        ((GetLeaseAddresses intf DhcpAddress.defaultGatewayAddress
            LE_NET_IPV4ADDR_MAX_BYTES LE_NET_IPV6ADDR_MAX_BYTES
            MAX_NUM_DEFAULT_GATEWAY_ADDRESS_BY_TYPE lease).1,
          { ipv4Addr := ((GetLeaseAddresses intf DhcpAddress.defaultGatewayAddress
              LE_NET_IPV4ADDR_MAX_BYTES LE_NET_IPV6ADDR_MAX_BYTES
              MAX_NUM_DEFAULT_GATEWAY_ADDRESS_BY_TYPE lease).2.1).getD 0 "",
            ipv6Addr := ((GetLeaseAddresses intf DhcpAddress.defaultGatewayAddress
              LE_NET_IPV4ADDR_MAX_BYTES LE_NET_IPV6ADDR_MAX_BYTES
              MAX_NUM_DEFAULT_GATEWAY_ADDRESS_BY_TYPE lease).2.2.1).getD 0 "" },
          (GetLeaseAddresses intf DhcpAddress.defaultGatewayAddress
            LE_NET_IPV4ADDR_MAX_BYTES LE_NET_IPV6ADDR_MAX_BYTES
            MAX_NUM_DEFAULT_GATEWAY_ADDRESS_BY_TYPE lease).2.2.2) := by
      unfold le_net_GetDefaultGW
      simp only [hni2]
      rfl
    rw [h1, h2]
  · intro s env st ch2 hch2 htech
    unfold le_net_SetDefaultGW
    rw [hch2]
    simp only [htech]
    rw [if_pos (by decide)]
  · intro s env st ch2 intf2 hch2 htech hni2
    unfold le_net_SetDefaultGW
    rw [hch2]
    simp only [htech, hni2]
    rw [if_neg (by decide)]
    rw [if_neg (by simp)]
    unfold gwAddrQuery
    rw [if_pos rfl]
    repeat' split <;> simp

theorem get_default_gw_lease_only_no_tech_check_witness :
    le_net_GetDefaultGW false
      (some { channelName := "c", technology := LE_DCS_TECH_UNKNOWN })
      (fun _ => (LeResult.ok, "eth0"))
      { pathRes := LeResult.ok, file := Except.ok ["routers 192.0.2.1;\n"] } =
    (LeResult.ok, { ipv4Addr := "192.0.2.1", ipv6Addr := "" },
      [Ev.leaseRead "eth0"]) :=
  ((get_default_gw_lease_only_no_tech_check
      { channelName := "c", technology := LE_DCS_TECH_UNKNOWN }
      (fun _ => (LeResult.ok, "eth0"))
      { pathRes := LeResult.ok, file := Except.ok ["routers 192.0.2.1;\n"] }
      "eth0" rfl).1).trans rfl
